import Mathlib

/-!
Shallow embedding of the BMI engine from `src/app.py`.

Numbers are modelled as exact rationals (the Python code uses floats, but
every claim is about the exact arithmetic with the fixed constants).
Optional age is `Option Int`; Python truthiness of an integer (`if age:`)
is `a ≠ 0` on a present value, and `age or 30` yields 30 when age is
`None` or `0`.  Optional gender, the unit system and the category are
strings, matching the dynamically typed source.
-/

/-- `calculate_bmi` from src/app.py lines 13-17: returns `none` when
`height <= 0 or weight <= 0`, otherwise `weight / height**2`. -/
def calculate_bmi (weight height : ℚ) : Option ℚ :=
  if height ≤ 0 ∨ weight ≤ 0 then none
  else some (weight / height ^ 2)

/-- `classify_bmi` from src/app.py lines 20-29: threshold chain returning
(category, indicator symbol). -/
def classify_bmi (bmi : ℚ) : String × String :=
  if bmi < 18.5 then ("Underweight", "🔵")
  else if 18.5 ≤ bmi ∧ bmi < 25 then ("Normal weight", "🟢")
  else if 25 ≤ bmi ∧ bmi < 30 then ("Overweight", "🟡")
  else ("Obese", "🔴")

/-- Age-branch message of src/app.py lines 67-69 (65+, Underweight). -/
def rec_senior_underweight : String :=
  "Older adults may need slightly higher BMI for better health outcomes - discuss with your doctor"

/-- Age-branch message of src/app.py lines 71-73 (65+, Normal weight). -/
def rec_senior_normal : String :=
  "Focus on maintaining muscle mass through resistance training and adequate protein intake"

/-- Age-branch message of src/app.py lines 75-77 (65+, Overweight or Obese). -/
def rec_senior_overweight : String :=
  "Weight loss for older adults should be supervised by healthcare professionals to preserve muscle mass"

/-- Age-branch message of src/app.py lines 79-81 (under 18). -/
def rec_under_18 : String :=
  "BMI interpretation for individuals under 18 may differ - consult with a pediatrician for appropriate guidance"

/-- Gender-branch message of src/app.py lines 86-88 (Female, Normal weight). -/
def rec_female_normal : String :=
  "Women may need additional iron and calcium in their diet - especially during reproductive years"

/-- Gender-branch message of src/app.py lines 90-92 (Female, Underweight). -/
def rec_female_underweight : String :=
  "Underweight in women can affect menstrual health and bone density - consider consulting a healthcare provider"

/-- Gender-branch message of src/app.py lines 95-97 (Male, Overweight or Obese). -/
def rec_male_overweight : String :=
  "Men tend to carry more visceral fat, which increases health risks - focus on waist circumference reduction"

/-- The `base_recommendations` dictionary of src/app.py lines 34-59, read
through `.get(category, [])` (line 61): a function from the category string
to its base list, empty for unknown categories. -/
def base_recommendations (category : String) : List String :=
  if category = "Underweight" then
    ["Consult with a healthcare provider to determine underlying causes",
     "Focus on nutrient-dense foods to gain weight healthily",
     "Consider strength training to build muscle mass",
     "Ensure adequate caloric intake for your activity level"]
  else if category = "Normal weight" then
    ["Maintain your current healthy lifestyle",
     "Continue regular physical activity (150 minutes moderate exercise per week)",
     "Eat a balanced diet rich in fruits, vegetables, and whole grains",
     "Monitor your weight regularly to maintain this healthy range"]
  else if category = "Overweight" then
    ["Aim for gradual weight loss (1-2 pounds per week)",
     "Increase physical activity to at least 300 minutes per week",
     "Focus on portion control and reducing caloric intake",
     "Consider consulting a nutritionist for personalized advice"]
  else if category = "Obese" then
    ["Consult with a healthcare provider for a comprehensive weight management plan",
     "Set realistic weight loss goals (5-10% of body weight initially)",
     "Combine dietary changes with regular physical activity",
     "Consider professional support from dietitians or weight loss programs"]
  else []

/-- `get_health_recommendations` from src/app.py lines 32-99: base list for
the category, then the age branch (guarded by Python truthiness `if age:`,
so a present age of 0 is skipped), then the gender branch, appended in that
order. -/
def get_health_recommendations (category : String) (age : Option Int)
    (gender : Option String) : List String :=
  let recommendations := base_recommendations category
  let recommendations := recommendations ++
    (match age with
     | none => []
     | some a =>
       if a ≠ 0 then
         if a ≥ 65 then
           if category = "Underweight" then [rec_senior_underweight]
           else if category = "Normal weight" then [rec_senior_normal]
           else if category = "Overweight" ∨ category = "Obese" then [rec_senior_overweight]
           else []
         else if a < 18 then [rec_under_18]
         else []
       else [])
  let recommendations := recommendations ++
    (if gender = some "Female" then
       if category = "Normal weight" then [rec_female_normal]
       else if category = "Underweight" then [rec_female_underweight]
       else []
     else if gender = some "Male" then
       if category = "Overweight" ∨ category = "Obese" then [rec_male_overweight]
       else []
     else [])
  recommendations

/-- Advisory note of src/app.py lines 107-109 (age 65+). -/
def note_senior : String :=
  "Note: For adults 65+, slightly higher BMI (23-30) may be associated with better health outcomes."

/-- Advisory note of src/app.py lines 112-114 (age under 18). -/
def note_under_18 : String :=
  "Important: This calculator is designed for adults. BMI interpretation for children and teens requires age and sex-specific percentiles."

/-- Advisory note of src/app.py lines 117-119 (Female, reproductive age). -/
def note_female : String :=
  "Note: BMI doesn't account for pregnancy, menstrual cycle variations, or body composition differences."

/-- Python `age or 30` on an optional integer: 30 when the age is absent or
0 (both falsy), the age itself otherwise. -/
def age_or_30 : Option Int → Int
  | none => 30
  | some a => if a = 0 then 30 else a

/-- `get_bmi_interpretation_note` from src/app.py lines 102-121: up to three
notes, gated by `age and age >= 65`, `age and age < 18`, and
`gender == "Female" and 18 <= (age or 30) <= 50`.  The `bmi` argument is
accepted but never read, as in the source. -/
def get_bmi_interpretation_note (bmi : ℚ) (age : Option Int)
    (gender : Option String) : List String :=
  let _ := bmi
  (match age with
   | none => []
   | some a => if a ≠ 0 ∧ a ≥ 65 then [note_senior] else []) ++
  (match age with
   | none => []
   | some a => if a ≠ 0 ∧ a < 18 then [note_under_18] else []) ++
  (if gender = some "Female" ∧ 18 ≤ age_or_30 age ∧ age_or_30 age ≤ 50 then
    [note_female]
   else [])

/-- `convert_height_to_meters` from src/app.py lines 124-130: under
"Imperial", `(feet * 12 + inches) * 0.0254`; otherwise `feet / 100`
(the first argument carries centimeters and is divided by 100). -/
def convert_height_to_meters (feet inches : ℚ) (unit_system : String) : ℚ :=
  if unit_system = "Imperial" then (feet * 12 + inches) * 0.0254
  else feet / 100

/-- `convert_weight_to_kg` from src/app.py lines 133-138: under "Imperial",
`weight * 0.453592`; otherwise the weight unchanged. -/
def convert_weight_to_kg (weight : ℚ) (unit_system : String) : ℚ :=
  if unit_system = "Imperial" then weight * 0.453592
  else weight

/-- `calculate_ideal_weight_range` from src/app.py lines 218-222. -/
def calculate_ideal_weight_range (height_m : ℚ) : ℚ × ℚ :=
  (18.5 * height_m ^ 2, 24.9 * height_m ^ 2)

/-- The age-branch entries as the amended claim C3 describes them: for a
present, nonzero age, one category-specific message when age ≥ 65, one
generic message when age < 18; a present age of 0 behaves like an absent
age. -/
def claimed_age_entries (category : String) (age : Option Int) : List String :=
  match age with
  | none => []
  | some a =>
    if a = 0 then []
    else if a ≥ 65 then
      if category = "Underweight" then [rec_senior_underweight]
      else if category = "Normal weight" then [rec_senior_normal]
      else if category = "Overweight" ∨ category = "Obese" then [rec_senior_overweight]
      else []
    else if a < 18 then [rec_under_18]
    else []

/-- The gender-branch entries as claim C3 describes them: Female gives one
message for Normal weight or Underweight, Male one message for Overweight
or Obese. -/
def claimed_gender_entries (category : String) (gender : Option String) : List String :=
  if gender = some "Female" then
    if category = "Normal weight" then [rec_female_normal]
    else if category = "Underweight" then [rec_female_underweight]
    else []
  else if gender = some "Male" then
    if category = "Overweight" ∨ category = "Obese" then [rec_male_overweight]
    else []
  else []

/-- The interpretation notes as the amended claim C4 describes them: three
independent gates, in order, on age ≥ 65, age < 18, and (Female and the
defaulted age in [18, 50]); a present age of 0 behaves like an absent age
in every gate, so the Female gate then uses the default 30. -/
def claimed_notes (age : Option Int) (gender : Option String) : List String :=
  let present := match age with | none => false | some a => decide (a ≠ 0)
  let a := age_or_30 age
  (if present = true ∧ a ≥ 65 then [note_senior] else []) ++
  (if present = true ∧ a < 18 then [note_under_18] else []) ++
  (if gender = some "Female" ∧ 18 ≤ a ∧ a ≤ 50 then [note_female] else [])

/-- C1: for weight > 0 and height > 0, `calculate_bmi` returns
`weight / height²`; whenever weight ≤ 0 or height ≤ 0 it returns `none`
(absence, not an exception). -/
theorem calculate_bmi_spec (weight height : ℚ) :
    (0 < weight → 0 < height → calculate_bmi weight height = some (weight / height ^ 2)) ∧
    (weight ≤ 0 ∨ height ≤ 0 → calculate_bmi weight height = none) := by
  constructor
  · intro hw hh
    have h : ¬(height ≤ 0 ∨ weight ≤ 0) := by push_neg; exact ⟨hh, hw⟩
    simp only [calculate_bmi, if_neg h]
  · intro h
    have h' : height ≤ 0 ∨ weight ≤ 0 := Or.symm h
    simp only [calculate_bmi, if_pos h']

/-- Witness for C1 at concrete inputs. -/
theorem calculate_bmi_spec_witness :
    calculate_bmi 70 (17/10) = some (70 / (17/10) ^ 2) ∧ calculate_bmi 70 0 = none :=
  ⟨(calculate_bmi_spec 70 (17/10)).1 (by norm_num) (by norm_num),
   (calculate_bmi_spec 70 0).2 (Or.inr le_rfl)⟩

/-- C2: for every positive bmi, `classify_bmi` returns Underweight below
18.5, Normal weight on [18.5, 25), Overweight on [25, 30), Obese from 30
on; the boundaries 18.5, 25 and 30 land in the upper category. -/
theorem classify_bmi_spec :
    (∀ bmi : ℚ, 0 < bmi →
      (bmi < 18.5 → (classify_bmi bmi).1 = "Underweight") ∧
      (18.5 ≤ bmi ∧ bmi < 25 → (classify_bmi bmi).1 = "Normal weight") ∧
      (25 ≤ bmi ∧ bmi < 30 → (classify_bmi bmi).1 = "Overweight") ∧
      (30 ≤ bmi → (classify_bmi bmi).1 = "Obese")) ∧
    (classify_bmi 18.5).1 = "Normal weight" ∧
    (classify_bmi 25).1 = "Overweight" ∧
    (classify_bmi 30).1 = "Obese" := by
  refine ⟨fun bmi _ => ⟨fun h => ?_, fun h => ?_, fun h => ?_, fun h => ?_⟩, ?_, ?_, ?_⟩
  · simp only [classify_bmi, if_pos h]
  · obtain ⟨h1, h2⟩ := h
    have hn : ¬ bmi < 18.5 := not_lt.mpr h1
    simp only [classify_bmi, if_neg hn, if_pos (And.intro h1 h2)]
  · obtain ⟨h1, h2⟩ := h
    have hn1 : ¬ bmi < 18.5 := by push_neg; linarith
    have hn2 : ¬ (18.5 ≤ bmi ∧ bmi < 25) := by rintro ⟨-, hlt⟩; linarith
    simp only [classify_bmi, if_neg hn1, if_neg hn2, if_pos (And.intro h1 h2)]
  · have hn1 : ¬ bmi < 18.5 := by push_neg; linarith
    have hn2 : ¬ (18.5 ≤ bmi ∧ bmi < 25) := by rintro ⟨-, hlt⟩; linarith
    have hn3 : ¬ (25 ≤ bmi ∧ bmi < 30) := by rintro ⟨-, hlt⟩; linarith
    simp only [classify_bmi, if_neg hn1, if_neg hn2, if_neg hn3]
  · norm_num [classify_bmi]
  · norm_num [classify_bmi]
  · norm_num [classify_bmi]

/-- Witness for C2 at a concrete positive bmi. -/
theorem classify_bmi_spec_witness : (classify_bmi 16).1 = "Underweight" :=
  (classify_bmi_spec.1 16 (by norm_num)).1 (by norm_num)

/-- Counterexample to C3 as stated: the age 0 is a present age below 18,
yet `get_health_recommendations` appends no under-18 entry (the Python
guard `if age:` treats 0 as absent), so the result keeps only the 4 base
entries instead of the claimed 5. -/
theorem under_18_entry_missing_at_age_zero :
    ((0 : Int) < 18) ∧
    get_health_recommendations "Normal weight" (some 0) none =
      base_recommendations "Normal weight" ∧
    (get_health_recommendations "Normal weight" (some 0) none).length = 4 :=
  ⟨by norm_num, rfl, rfl⟩

/-- C3 (amended: an age branch fires only for a present, nonzero age —
age 0 is treated as absent): `get_health_recommendations` is the 4-entry
base list of the category, then the age-branch entries, then the
gender-branch entries, in that order; at ("Normal weight", 70, Female) this
gives the base 4, then the 65+ muscle-mass message, then the Female
iron-calcium message, length 6. -/
theorem get_health_recommendations_structure :
    (∀ (category : String) (age : Option Int) (gender : Option String),
      get_health_recommendations category age gender =
        base_recommendations category ++ claimed_age_entries category age ++
          claimed_gender_entries category gender) ∧
    (base_recommendations "Underweight").length = 4 ∧
    (base_recommendations "Normal weight").length = 4 ∧
    (base_recommendations "Overweight").length = 4 ∧
    (base_recommendations "Obese").length = 4 ∧
    get_health_recommendations "Normal weight" (some 70) (some "Female") =
      base_recommendations "Normal weight" ++ [rec_senior_normal] ++ [rec_female_normal] ∧
    (get_health_recommendations "Normal weight" (some 70) (some "Female")).length = 6 := by
  refine ⟨?_, rfl, rfl, rfl, rfl, rfl, rfl⟩
  intro category age gender
  simp only [get_health_recommendations, claimed_age_entries, claimed_gender_entries]
  cases age with
  | none => rfl
  | some a =>
    by_cases h0 : a = 0
    · subst h0; rfl
    · simp [h0]

/-- Counterexample to C4 as stated: at the present age 0, the claimed gate
"age < 18" holds and the claimed Female gate "age in [18, 50]" fails, yet
the code emits exactly the pregnancy/menstrual-cycle note and no under-18
note — `age and age < 18` is falsy at 0 and `age or 30` defaults 0 to 30. -/
theorem interpretation_gates_fail_at_age_zero :
    ((0 : Int) < 18) ∧ ¬(18 ≤ (0 : Int) ∧ (0 : Int) ≤ 50) ∧
    get_bmi_interpretation_note 22 (some 0) (some "Female") = [note_female] :=
  ⟨by norm_num, by norm_num, rfl⟩

/-- C4 (amended: a present age of 0 behaves like an absent age in all three
gates, the Female gate then using the default 30): the notes are, in order,
the 65+ note, the under-18 note and the Female note, each under its gate;
there are at most three; with an absent age the two age-gated notes never
fire and the Female note fires through the default age 30, so
`get_bmi_interpretation_note 22 none Female = [note_female]`. -/
theorem get_bmi_interpretation_note_structure :
    (∀ (bmi : ℚ) (age : Option Int) (gender : Option String),
      get_bmi_interpretation_note bmi age gender = claimed_notes age gender) ∧
    (∀ (bmi : ℚ) (age : Option Int) (gender : Option String),
      (get_bmi_interpretation_note bmi age gender).length ≤ 3) ∧
    get_bmi_interpretation_note 22 none (some "Female") = [note_female] ∧
    (∀ (bmi : ℚ) (gender : Option String),
      get_bmi_interpretation_note bmi none gender =
        if gender = some "Female" then [note_female] else []) := by
  refine ⟨?_, ?_, rfl, ?_⟩
  · intro bmi age gender
    simp only [get_bmi_interpretation_note, claimed_notes]
    cases age with
    | none => rfl
    | some a =>
      by_cases h0 : a = 0
      · subst h0; rfl
      · simp [h0, age_or_30]
  · intro bmi age gender
    simp only [get_bmi_interpretation_note]
    cases age <;> split_ifs <;> simp <;> split_ifs <;> simp
  · intro bmi gender
    simp only [get_bmi_interpretation_note]
    by_cases hg : gender = some "Female" <;> simp [hg, age_or_30]

/-- Counterexample to C5 as stated: under "Metric",
`convert_height_to_meters` is not the identity on its height input — at
170 (centimeters) it returns 1.7, not 170. -/
theorem metric_height_not_identity :
    convert_height_to_meters 170 0 "Metric" = 17/10 ∧ (17/10 : ℚ) ≠ 170 := by
  have h : ("Metric" : String) ≠ "Imperial" := by decide
  constructor
  · rw [convert_height_to_meters, if_neg h]; norm_num
  · norm_num

/-- C5 (amended: under "Metric", `convert_weight_to_kg` is the identity,
while `convert_height_to_meters` reads its first argument as centimeters
and divides it by 100, ignoring the inches argument). -/
theorem metric_conversion_spec :
    (∀ weight : ℚ, convert_weight_to_kg weight "Metric" = weight) ∧
    (∀ feet inches : ℚ, convert_height_to_meters feet inches "Metric" = feet / 100) := by
  have h : ("Metric" : String) ≠ "Imperial" := by decide
  exact ⟨fun w => by rw [convert_weight_to_kg, if_neg h],
         fun f i => by rw [convert_height_to_meters, if_neg h]⟩

/-- C6: under "Imperial", height is `(feet * 12 + inches) * 0.0254` and
weight is `weight * 0.453592`; in exact arithmetic,
`convert_height_to_meters 5 8 = 1.7272` and
`convert_weight_to_kg 154 = 69.853168`. -/
theorem imperial_conversion_spec :
    (∀ feet inches : ℚ,
      convert_height_to_meters feet inches "Imperial" = (feet * 12 + inches) * 0.0254) ∧
    (∀ weight : ℚ, convert_weight_to_kg weight "Imperial" = weight * 0.453592) ∧
    convert_height_to_meters 5 8 "Imperial" = 1.7272 ∧
    convert_weight_to_kg 154 "Imperial" = 69.853168 := by
  refine ⟨fun f i => by rw [convert_height_to_meters, if_pos rfl],
          fun w => by rw [convert_weight_to_kg, if_pos rfl], ?_, ?_⟩
  · rw [convert_height_to_meters, if_pos rfl]; norm_num
  · rw [convert_weight_to_kg, if_pos rfl]; norm_num

/-- C7: `calculate_ideal_weight_range` returns
`(18.5 * heightM², 24.9 * heightM²)`; at 1.7 this is (53.465, 71.961). -/
theorem ideal_weight_range_spec :
    (∀ height_m : ℚ,
      calculate_ideal_weight_range height_m = (18.5 * height_m ^ 2, 24.9 * height_m ^ 2)) ∧
    calculate_ideal_weight_range (17/10) = (53.465, 71.961) := by
  refine ⟨fun h => rfl, ?_⟩
  simp only [calculate_ideal_weight_range, Prod.mk.injEq]
  norm_num

/-- Counterexample to C8 as stated: the distinct (feet, inches) pairs
(1, 0) and (0, 12) map to the same height in meters, so
`convert_height_to_meters` is not injective over arbitrary pairs. -/
theorem height_conversion_not_injective :
    convert_height_to_meters 1 0 "Imperial" = convert_height_to_meters 0 12 "Imperial" ∧
    ((1 : ℚ), (0 : ℚ)) ≠ ((0 : ℚ), (12 : ℚ)) := by
  constructor
  · rw [convert_height_to_meters, convert_height_to_meters, if_pos rfl, if_pos rfl]
    norm_num
  · simp

/-- C8 (amended: weight conversion under "Imperial" is injective on all
rationals; height conversion under "Imperial" is injective on integer
(feet, inches) pairs with 0 ≤ inches < 12, the app's input domain). -/
theorem imperial_conversions_injective (w w' : ℚ) (f i f' i' : ℤ)
    (hi0 : 0 ≤ i) (hi1 : i < 12) (hj0 : 0 ≤ i') (hj1 : i' < 12)
    (hw : convert_weight_to_kg w "Imperial" = convert_weight_to_kg w' "Imperial")
    (hh : convert_height_to_meters (f : ℚ) (i : ℚ) "Imperial" =
          convert_height_to_meters (f' : ℚ) (i' : ℚ) "Imperial") :
    w = w' ∧ f = f' ∧ i = i' := by
  rw [convert_weight_to_kg, convert_weight_to_kg, if_pos rfl, if_pos rfl] at hw
  rw [convert_height_to_meters, convert_height_to_meters, if_pos rfl, if_pos rfl] at hh
  refine ⟨mul_right_cancel₀ (by norm_num) hw, ?_⟩
  have h2 : (f : ℚ) * 12 + i = (f' : ℚ) * 12 + i' :=
    mul_right_cancel₀ (by norm_num) hh
  have h3 : f * 12 + i = f' * 12 + i' := by exact_mod_cast h2
  constructor <;> omega

/-- Witness for C8 at concrete inputs. -/
theorem imperial_conversions_injective_witness :
    (3 : ℚ) = 3 ∧ (5 : ℤ) = 5 ∧ (8 : ℤ) = 8 :=
  imperial_conversions_injective 3 3 5 8 5 8 (by norm_num) (by norm_num)
    (by norm_num) (by norm_num) rfl rfl

/-- C9: a present age of 0 is treated exactly like an absent age:
`get_health_recommendations` gives the same list for age 0 and age None
(no under-18 entry), and `get_bmi_interpretation_note` at age 0 with
gender Female behaves like age None — the `age or 30` default puts 30 in
[18, 50], so the result is exactly the pregnancy/menstrual-cycle note and
no under-18 note. -/
theorem age_zero_treated_as_absent :
    (∀ (category : String) (gender : Option String),
      get_health_recommendations category (some 0) gender =
        get_health_recommendations category none gender) ∧
    (∀ bmi : ℚ,
      get_bmi_interpretation_note bmi (some 0) (some "Female") =
        get_bmi_interpretation_note bmi none (some "Female") ∧
      get_bmi_interpretation_note bmi (some 0) (some "Female") = [note_female]) :=
  ⟨fun _ _ => rfl, fun _ => ⟨rfl, rfl⟩⟩

/-- C10: for a category string outside the four known categories,
`get_health_recommendations` still succeeds: the base list is empty and
the result is only the under-18 entry when a present, nonzero age below 18
is given, and nothing from the 65+ or gender branches. -/
theorem unknown_category_spec (category : String)
    (h1 : category ≠ "Underweight") (h2 : category ≠ "Normal weight")
    (h3 : category ≠ "Overweight") (h4 : category ≠ "Obese") :
    base_recommendations category = [] ∧
    ∀ (age : Option Int) (gender : Option String),
      get_health_recommendations category age gender =
        (match age with
         | none => []
         | some a => if a ≠ 0 ∧ a < 18 then [rec_under_18] else []) := by
  have hb : base_recommendations category = [] := by
    simp [base_recommendations, h1, h2, h3, h4]
  refine ⟨hb, ?_⟩
  intro age gender
  cases age with
  | none => simp [get_health_recommendations, hb, h1, h2, h3, h4]
  | some a =>
    rcases eq_or_ne a 0 with h0 | h0
    · subst h0; simp [get_health_recommendations, hb, h1, h2, h3, h4]
    · by_cases h65 : a ≥ 65
      · have h18 : ¬ a < 18 := by omega
        simp [get_health_recommendations, hb, h1, h2, h3, h4, h0, h65, h18]
      · simp [get_health_recommendations, hb, h1, h2, h3, h4, h0, h65]

/-- Witness for C10 at a concrete unknown category. -/
theorem unknown_category_spec_witness :
    get_health_recommendations "Banana" (some 10) (some "Male") = [rec_under_18] :=
  (unknown_category_spec "Banana" (by decide) (by decide) (by decide)
    (by decide)).2 (some 10) (some "Male")
